import Mathlib

/-!
Shallow embedding of the Space Invaders game core (src/Space_invaders.py).

Coordinates and sizes are Python ints, modelled as Lean Int. Python floor
division (//) is modelled by Int.fdiv. pygame.Rect.colliderect is modelled
by its documented semantics: two rectangles collide iff all four sizes are
nonzero and the open interiors overlap (strict inequalities on both axes).
The per-tick methods of Game (update_bullets, update_aliens,
check_collisions, check_alien_collision_with_player, handle_input, the
KEYDOWN branches of handle_events, restart_game) become pure functions on a
Game record; the pygame rendering and event plumbing are outside the core.
-/

namespace SpaceInvaders

/-- SCREEN_WIDTH = 800. -/
def SCREEN_WIDTH : Int := 800

/-- SCREEN_HEIGHT = 600. -/
def SCREEN_HEIGHT : Int := 600

/-- PLAYER_SPEED = 5. -/
def PLAYER_SPEED : Int := 5

/-- BULLET_SPEED = 7. -/
def BULLET_SPEED : Int := 7

/-- ALIEN_SPEED = 1. -/
def ALIEN_SPEED : Int := 1

/-- ALIEN_DROP_SPEED = 20. -/
def ALIEN_DROP_SPEED : Int := 20

/-- Axis-aligned rectangle as produced by get_rect: pygame.Rect(x, y, w, h). -/
structure Rect where
  x : Int
  y : Int
  w : Int
  h : Int
  deriving DecidableEq

/-- pygame.Rect.colliderect: true iff both rects have nonzero width and
height and their interiors overlap (edge-touching rects do not collide). -/
def Rect.colliderect (A B : Rect) : Bool :=
  decide (A.w ≠ 0) && decide (A.h ≠ 0) && decide (B.w ≠ 0) && decide (B.h ≠ 0) &&
  decide (A.x < B.x + B.w) && decide (A.y < B.y + B.h) &&
  decide (A.x + A.w > B.x) && decide (A.y + A.h > B.y)

/-- Player: position, fixed size 50x40, speed PLAYER_SPEED. -/
structure Player where
  x : Int
  y : Int
  width : Int
  height : Int
  speed : Int
  deriving DecidableEq

/-- Player.__init__(x, y): width 50, height 40, speed PLAYER_SPEED. -/
def Player.init (x y : Int) : Player :=
  { x := x, y := y, width := 50, height := 40, speed := PLAYER_SPEED }

/-- Player.move_left: if self.x > 0 then self.x -= self.speed. -/
def Player.move_left (p : Player) : Player :=
  if p.x > 0 then { p with x := p.x - p.speed } else p

/-- Player.move_right: if self.x < SCREEN_WIDTH - self.width then
self.x += self.speed. -/
def Player.move_right (p : Player) : Player :=
  if p.x < SCREEN_WIDTH - p.width then { p with x := p.x + p.speed } else p

/-- Player.get_rect. -/
def Player.get_rect (p : Player) : Rect :=
  { x := p.x, y := p.y, w := p.width, h := p.height }

/-- Bullet: position, fixed size 5x10, speed BULLET_SPEED. -/
structure Bullet where
  x : Int
  y : Int
  width : Int
  height : Int
  speed : Int
  deriving DecidableEq

/-- Bullet.__init__(x, y): width 5, height 10, speed BULLET_SPEED. -/
def Bullet.init (x y : Int) : Bullet :=
  { x := x, y := y, width := 5, height := 10, speed := BULLET_SPEED }

/-- Bullet.move: self.y -= self.speed. -/
def Bullet.move (b : Bullet) : Bullet :=
  { b with y := b.y - b.speed }

/-- Bullet.is_off_screen: self.y < 0. -/
def Bullet.is_off_screen (b : Bullet) : Bool :=
  decide (b.y < 0)

/-- Bullet.get_rect. -/
def Bullet.get_rect (b : Bullet) : Rect :=
  { x := b.x, y := b.y, w := b.width, h := b.height }

/-- Alien: position, fixed size 40x30, speed ALIEN_SPEED, direction 1 or -1. -/
structure Alien where
  x : Int
  y : Int
  width : Int
  height : Int
  speed : Int
  direction : Int
  deriving DecidableEq

/-- Alien.__init__(x, y): width 40, height 30, speed ALIEN_SPEED,
direction 1. -/
def Alien.init (x y : Int) : Alien :=
  { x := x, y := y, width := 40, height := 30, speed := ALIEN_SPEED,
    direction := 1 }

/-- Alien.move: self.x += self.speed * self.direction. -/
def Alien.move (a : Alien) : Alien :=
  { a with x := a.x + a.speed * a.direction }

/-- Alien.drop_down: self.y += ALIEN_DROP_SPEED; self.direction *= -1. -/
def Alien.drop_down (a : Alien) : Alien :=
  { a with y := a.y + ALIEN_DROP_SPEED, direction := a.direction * (-1) }

/-- Alien.get_rect. -/
def Alien.get_rect (a : Alien) : Rect :=
  { x := a.x, y := a.y, w := a.width, h := a.height }

/-- The edge test inside Game.update_aliens, evaluated on an alien after its
move: alien.x <= 0 or alien.x >= SCREEN_WIDTH - alien.width. -/
def Alien.at_edge (a : Alien) : Bool :=
  decide (a.x ≤ 0) || decide (a.x ≥ SCREEN_WIDTH - a.width)

/-- Game.create_alien_formation: 5 rows x 10 cols of aliens at
x = col * 60 + 50, y = row * 50 + 50 (row-major order). -/
def create_alien_formation : List Alien :=
  (List.range 5).flatMap (fun row =>
    (List.range 10).map (fun col =>
      Alien.init ((col : Int) * 60 + 50) ((row : Int) * 50 + 50)))

/-- The bullet-list transformation performed by Game.update_bullets: drop the
bullets that are already off screen, then move every remaining bullet. -/
def bullets_update (bs : List Bullet) : List Bullet :=
  (bs.filter (fun b => !b.is_off_screen)).map Bullet.move

/-- The alien-list transformation performed by Game.update_aliens: if the
collection is empty, rebuild the formation; move every alien; if any alien
is then at an edge, every alien drops down and reverses direction. -/
def aliens_update (as : List Alien) : List Alien :=
  let base := if as.isEmpty then create_alien_formation else as
  let moved := base.map Alien.move
  if moved.any Alien.at_edge then moved.map Alien.drop_down else moved

/-- The simulation fields of the Game object: player, bullets, aliens,
score, lives, game_over (screen, clock and font are rendering plumbing). -/
structure Game where
  player : Player
  bullets : List Bullet
  aliens : List Alien
  score : Int
  lives : Int
  game_over : Bool
  deriving DecidableEq

/-- Game.__init__ / the state after restart_game: player at
(SCREEN_WIDTH // 2 - 25, SCREEN_HEIGHT - 80), no bullets, score 0,
lives 3, not game over, fresh alien formation. -/
def Game.initial : Game :=
  { player := Player.init (SCREEN_WIDTH.fdiv 2 - 25) (SCREEN_HEIGHT - 80),
    bullets := [], aliens := create_alien_formation,
    score := 0, lives := 3, game_over := false }

/-- Game.update_bullets. -/
def Game.update_bullets (g : Game) : Game :=
  { g with bullets := bullets_update g.bullets }

/-- Game.update_aliens. -/
def Game.update_aliens (g : Game) : Game :=
  { g with aliens := aliens_update g.aliens }

/-- The inner loop of Game.check_collisions for one bullet: scan the alien
list in order and remove the first alien whose rect collides with the
bullet (the loop breaks there, so at most one alien is removed); none when
the bullet collides with no alien. -/
def resolve_bullet (b : Bullet) : List Alien → Option (List Alien)
  | [] => none
  | a :: rest =>
      if b.get_rect.colliderect a.get_rect then some rest
      else match resolve_bullet b rest with
        | some rest2 => some (a :: rest2)
        | none => none

/-- One outer-loop step of Game.check_collisions for one bullet: if the
bullet hits some alien, the bullet and that alien are removed and the score
grows by 10; otherwise the bullet is kept. The accumulator carries
(bullets kept, aliens, score). -/
def collide_step (acc : List Bullet × List Alien × Int) (b : Bullet) :
    List Bullet × List Alien × Int :=
  match resolve_bullet b acc.2.1 with
  | some rest => (acc.1, rest, acc.2.2 + 10)
  | none => (acc.1 ++ [b], acc.2.1, acc.2.2)

/-- Game.check_collisions: iterate over a snapshot of the bullet list,
resolving each bullet against the evolving alien list. -/
def Game.check_collisions (g : Game) : Game :=
  let r := g.bullets.foldl collide_step ([], g.aliens, g.score)
  { g with bullets := r.1, aliens := r.2.1, score := r.2.2 }

/-- The breach test inside Game.check_alien_collision_with_player:
alien.get_rect().colliderect(player_rect) or alien.y >= SCREEN_HEIGHT - 100. -/
def Alien.breaches (a : Alien) (p : Player) : Bool :=
  a.get_rect.colliderect p.get_rect || decide (a.y ≥ SCREEN_HEIGHT - 100)

/-- Game.check_alien_collision_with_player: on the first breaching alien,
lose one life and break; if lives <= 0 set game_over, else rebuild the
alien formation. -/
def Game.check_alien_collision_with_player (g : Game) : Game :=
  match g.aliens.find? (fun a => a.breaches g.player) with
  | some _ =>
      if g.lives - 1 ≤ 0 then
        { g with lives := g.lives - 1, game_over := true }
      else
        { g with lives := g.lives - 1, aliens := create_alien_formation }
  | none => g

/-- The K_SPACE branch of Game.handle_events: when not game over, append one
bullet at (player.x + player.width // 2 - 2, player.y). -/
def Game.fire (g : Game) : Game :=
  if g.game_over then g
  else
    { g with bullets := g.bullets ++
        [Bullet.init (g.player.x + g.player.width.fdiv 2 - 2) g.player.y] }

/-- Game.restart_game: fresh player, empty bullets, score 0, lives 3,
game_over false, fresh alien formation (same state as Game.__init__). -/
def Game.restart_game (_g : Game) : Game :=
  Game.initial

/-- The K_r branch of Game.handle_events: restart only while game over,
otherwise ignored. -/
def Game.restart_key (g : Game) : Game :=
  if g.game_over then g.restart_game else g

/-- Game.handle_input: while not game over, move left if a left key is held,
then move right if a right key is held. -/
def Game.handle_input (g : Game) (left right : Bool) : Game :=
  if g.game_over then g
  else
    let p1 := if left then g.player.move_left else g.player
    let p2 := if right then p1.move_right else p1
    { g with player := p2 }

/-- The body of the main loop in Game.run after event handling: while not
game over, run handle_input, update_bullets, update_aliens,
check_collisions and check_alien_collision_with_player in that order;
while game over, the simulation state is untouched. -/
def Game.tick (g : Game) (left right : Bool) : Game :=
  if g.game_over then g
  else
    ((((g.handle_input left right).update_bullets).update_aliens).check_collisions).check_alien_collision_with_player

/-- The bullets visible in a frame drawn by Game.draw: bullets are drawn
only while not game over, after the tick's updates have run. -/
def Game.rendered_bullets (g : Game) : List Bullet :=
  if g.game_over then [] else g.bullets

/-! ## Theorems -/

/-- C2 counterexample: the claim says move_left is a no-op whenever the
result would drop below 0, so x never becomes negative; but the guard in
the source tests the current x, not the result. From x = 3 (speed 5),
move_left is not a no-op and yields x = -2 < 0; symmetrically from x = 748,
move_right yields x = 753 > SCREEN_WIDTH - width = 750. -/
theorem c2_counterexample :
    ((Player.init 3 (SCREEN_HEIGHT - 80)).move_left).x = -2 ∧ (-2 : Int) < 0 ∧
    (Player.init 3 (SCREEN_HEIGHT - 80)).move_left ≠ Player.init 3 (SCREEN_HEIGHT - 80) ∧
    ((Player.init 748 (SCREEN_HEIGHT - 80)).move_right).x = 753 ∧
    SCREEN_WIDTH - ((Player.init 748 (SCREEN_HEIGHT - 80)).move_right).width < 753 := by
  decide

/-- C2 amended: move_left subtracts speed exactly when x > 0 and is a no-op
exactly when x ≤ 0 (the guard tests the current x, not the result);
symmetrically move_right adds speed exactly when x < SCREEN_WIDTH - width.
Clamping at the borders holds for the states the game reaches: when x is a
nonnegative multiple of the speed PLAYER_SPEED = 5 (and width = 50 on the
right side), the result never leaves [0, SCREEN_WIDTH - width]. -/
theorem c2_amended (p : Player) :
    (p.x ≤ 0 → p.move_left = p) ∧
    (0 < p.x → (p.move_left).x = p.x - p.speed) ∧
    (SCREEN_WIDTH - p.width ≤ p.x → p.move_right = p) ∧
    (p.x < SCREEN_WIDTH - p.width → (p.move_right).x = p.x + p.speed) ∧
    (p.speed = PLAYER_SPEED → 0 ≤ p.x → PLAYER_SPEED ∣ p.x → 0 ≤ (p.move_left).x) ∧
    (p.speed = PLAYER_SPEED → p.width = 50 → PLAYER_SPEED ∣ p.x →
      p.x ≤ SCREEN_WIDTH - p.width → (p.move_right).x ≤ SCREEN_WIDTH - p.width) := by
  unfold Player.move_left Player.move_right
  refine ⟨?_, ?_, ?_, ?_, ?_, ?_⟩
  · intro h; rw [if_neg (by omega)]
  · intro h; rw [if_pos (by omega)]
  · intro h; rw [if_neg (by omega)]
  · intro h; rw [if_pos (by omega)]
  · intro hs h0 hd
    simp only [PLAYER_SPEED] at hd
    by_cases hx : p.x > 0
    · rw [if_pos hx]
      dsimp only
      rw [hs]
      simp only [PLAYER_SPEED]
      omega
    · rw [if_neg hx]
      exact h0
  · intro hs hw hd hx
    simp only [PLAYER_SPEED] at hd
    simp only [SCREEN_WIDTH, hw] at hx ⊢
    by_cases hg : p.x < 800 - 50
    · rw [if_pos hg]
      dsimp only
      rw [hs]
      simp only [PLAYER_SPEED]
      omega
    · rw [if_neg hg]
      exact hx

/-- C2 witness: at x = 0 move_left is a no-op; at the initial x = 375 it
subtracts the speed and the result stays nonnegative. -/
theorem c2_witness :
    (Player.init 0 (SCREEN_HEIGHT - 80)).move_left = Player.init 0 (SCREEN_HEIGHT - 80) ∧
    ((Player.init 375 (SCREEN_HEIGHT - 80)).move_left).x =
      375 - (Player.init 375 (SCREEN_HEIGHT - 80)).speed ∧
    0 ≤ ((Player.init 375 (SCREEN_HEIGHT - 80)).move_left).x :=
  ⟨(c2_amended (Player.init 0 (SCREEN_HEIGHT - 80))).1 (by decide),
   (c2_amended (Player.init 375 (SCREEN_HEIGHT - 80))).2.1 (by decide),
   (c2_amended (Player.init 375 (SCREEN_HEIGHT - 80))).2.2.2.2.1 (by decide) (by decide)
     (by decide)⟩

/-- A left or right move command applied to the player, as issued by
Game.handle_input from held keys. -/
inductive MoveCmd where
  | left
  | right

/-- Apply one move command to the player. -/
def apply_move (p : Player) (c : MoveCmd) : Player :=
  match c with
  | .left => p.move_left
  | .right => p.move_right

/-- The horizontal clamping invariant: width 50, speed 5, x a multiple of 5
inside [0, 750]. It is preserved by every move command. -/
lemma apply_move_invariant (c : MoveCmd) (p : Player)
    (hw : p.width = 50) (hs : p.speed = 5) (h0 : 0 ≤ p.x) (h1 : p.x ≤ 750)
    (hd : (5 : Int) ∣ p.x) :
    (apply_move p c).width = 50 ∧ (apply_move p c).speed = 5 ∧
    0 ≤ (apply_move p c).x ∧ (apply_move p c).x ≤ 750 ∧
    (5 : Int) ∣ (apply_move p c).x := by
  cases c
  · simp only [apply_move, Player.move_left]
    by_cases hx : p.x > 0
    · rw [if_pos hx]
      dsimp only
      rw [hs]
      exact ⟨hw, rfl, by omega, by omega, by omega⟩
    · rw [if_neg hx]
      exact ⟨hw, hs, h0, h1, hd⟩
  · simp only [apply_move, Player.move_right]
    simp only [SCREEN_WIDTH, hw]
    by_cases hg : p.x < 800 - 50
    · rw [if_pos hg]
      dsimp only
      rw [hs]
      exact ⟨rfl, rfl, by omega, by omega, by omega⟩
    · rw [if_neg hg]
      exact ⟨hw, hs, h0, h1, hd⟩

/-- The invariant carried through any sequence of move commands. -/
lemma foldl_apply_move_invariant (cmds : List MoveCmd) :
    ∀ p : Player, p.width = 50 → p.speed = 5 → 0 ≤ p.x → p.x ≤ 750 →
    (5 : Int) ∣ p.x →
    (cmds.foldl apply_move p).width = 50 ∧ (cmds.foldl apply_move p).speed = 5 ∧
    0 ≤ (cmds.foldl apply_move p).x ∧ (cmds.foldl apply_move p).x ≤ 750 ∧
    (5 : Int) ∣ (cmds.foldl apply_move p).x := by
  induction cmds with
  | nil => intro p hw hs h0 h1 hd; exact ⟨hw, hs, h0, h1, hd⟩
  | cons c t ih =>
      intro p hw hs h0 h1 hd
      simp only [List.foldl_cons]
      obtain ⟨hw2, hs2, h02, h12, hd2⟩ := apply_move_invariant c p hw hs h0 h1 hd
      exact ih (apply_move p c) hw2 hs2 h02 h12 hd2

/-- C3: starting from the initial player (x = SCREEN_WIDTH // 2 - 25 = 375,
speed 5), any sequence of left/right move commands leaves the player's x
inside [0, SCREEN_WIDTH - width]. -/
theorem c3_theorem (cmds : List MoveCmd) :
    0 ≤ (cmds.foldl apply_move Game.initial.player).x ∧
    (cmds.foldl apply_move Game.initial.player).x ≤
      SCREEN_WIDTH - (cmds.foldl apply_move Game.initial.player).width := by
  obtain ⟨hw, _, h0, h1, _⟩ :=
    foldl_apply_move_invariant cmds Game.initial.player (by decide) (by decide)
      (by decide) (by decide) (by decide)
  refine ⟨h0, ?_⟩
  rw [hw, SCREEN_WIDTH]
  omega

/-- C1 counterexample: the claim says a never-colliding projectile created
at height y0 is removed after exactly ceil(y0/speed) ticks and is never
rendered with y < 0. With y0 = 10 and speed 7, ceil(10/7) = 2, but after 2
calls of update_bullets the bullet is still in the collection, with
y = -4 < 0, and the frame drawn at the end of that tick renders it there
(update_bullets filters the off-screen bullets before moving, so a bullet
spends one full rendered tick at negative y before it is dropped). -/
theorem c1_counterexample :
    bullets_update (bullets_update [Bullet.init 398 10]) ≠ [] ∧
    (∃ b ∈ (Game.mk (Player.init 375 520)
        (bullets_update (bullets_update [Bullet.init 398 10])) [] 0 3
        false).rendered_bullets, b.y < 0) := by
  decide

/-- C1 amended: a projectile created at height y0 ≥ 0 that never collides
stays in the collection for exactly y0 / 7 + 2 ticks, one tick longer than
the claimed ceil(y0/7) + adjustment: after each of the first y0 / 7 + 1
calls of update_bullets it is still present at y = y0 - 7k, it is dropped
by the (y0 / 7 + 2)-nd call, and in the frame rendered after tick
y0 / 7 + 1 it appears with y < 0. -/
theorem c1_amended (x : Int) (y0 : Nat) :
    (∀ k : Nat, k ≤ y0 / 7 + 1 →
      bullets_update^[k] [Bullet.init x (y0 : Int)] =
        [{ x := x, y := (y0 : Int) - 7 * (k : Int), width := 5, height := 10,
           speed := BULLET_SPEED }]) ∧
    bullets_update^[y0 / 7 + 2] [Bullet.init x (y0 : Int)] = [] ∧
    ∀ b ∈ bullets_update^[y0 / 7 + 1] [Bullet.init x (y0 : Int)], b.y < 0 := by
  have key : ∀ k : Nat, k ≤ y0 / 7 + 1 →
      bullets_update^[k] [Bullet.init x (y0 : Int)] =
        [{ x := x, y := (y0 : Int) - 7 * (k : Int), width := 5, height := 10,
           speed := BULLET_SPEED }] := by
    intro k
    induction k with
    | zero =>
        intro _
        simp [Bullet.init]
    | succ n ih =>
        intro hk
        have hn : n ≤ y0 / 7 + 1 := by omega
        have hnn : n ≤ y0 / 7 := by omega
        have hpos : ¬ ((y0 : Int) - 7 * (n : Int) < 0) := by omega
        rw [Function.iterate_succ_apply', ih hn]
        simp [bullets_update, Bullet.is_off_screen, Bullet.move, hpos,
          BULLET_SPEED]
        ring
  refine ⟨key, ?_, ?_⟩
  · have h1 := key (y0 / 7 + 1) (by omega)
    have : y0 / 7 + 2 = (y0 / 7 + 1) + 1 := rfl
    rw [this, Function.iterate_succ_apply', h1]
    have hneg : ((y0 : Int) - 7 * ((y0 / 7 + 1 : Nat) : Int) < 0) := by
      omega
    simp [bullets_update, Bullet.is_off_screen, hneg]
    omega
  · rw [key (y0 / 7 + 1) (by omega)]
    intro b hb
    simp at hb
    rw [hb]
    dsimp only
    omega

/-- C1 witness: instantiating the amended statement at y0 = 10 (so
y0 / 7 + 1 = 2 and y0 / 7 + 2 = 3): after 2 ticks the bullet is still
present at y = -4, after 3 ticks it is gone. -/
theorem c1_witness :
    bullets_update^[2] [Bullet.init 398 (10 : Int)] =
      [{ x := 398, y := (10 : Int) - 7 * (2 : Int), width := 5, height := 10,
         speed := BULLET_SPEED }] ∧
    bullets_update^[3] [Bullet.init 398 (10 : Int)] = [] :=
  ⟨(c1_amended 398 10).1 2 (by decide), (c1_amended 398 10).2.1⟩

/-- C4 counterexample: the claim says that after an enemy update starting
from an empty collection the 50 aliens sit at the canonical grid
x = col * 60 + 50; but update_aliens moves the freshly regenerated
formation in the same call, so every alien's x is col * 60 + 51 and no
alien sits at any canonical column abscissa. -/
theorem c4_counterexample :
    (aliens_update []).length = 50 ∧
    ∃ a ∈ aliens_update [], ∀ col : Nat, col < 10 →
      a.x ≠ (col : Int) * 60 + 50 := by
  decide

/-- C4 amended: after an enemy update starting from an empty collection the
collection has exactly 50 members (5 rows by 10 columns) with the default
rightward direction, regenerated on the canonical grid and then advanced
one rightward step by the same update: x = col * 60 + 50 + 1,
y = row * 50 + 50, direction 1 (no edge drop is triggered). -/
theorem c4_amended :
    aliens_update [] =
      (List.range 5).flatMap (fun row =>
        (List.range 10).map (fun col =>
          { x := (col : Int) * 60 + 50 + 1, y := (row : Int) * 50 + 50,
            width := 40, height := 30, speed := ALIEN_SPEED,
            direction := 1 })) ∧
    (aliens_update []).length = 50 ∧
    ∀ a ∈ aliens_update [], a.direction = 1 := by
  refine ⟨by decide, by decide, by decide⟩

/-- C5: in a collision-resolution tick whose projectile overlaps two or
more enemy rectangles, exactly one enemy is removed, the projectile is
removed, and the score grows by exactly 10. -/
theorem c5_theorem (g : Game) (b : Bullet) (hb : g.bullets = [b])
    (h2 : 2 ≤ g.aliens.countP (fun a => b.get_rect.colliderect a.get_rect)) :
    (g.check_collisions).bullets = [] ∧
    (g.check_collisions).aliens.length + 1 = g.aliens.length ∧
    (g.check_collisions).score = g.score + 10 := by
  have hex : ∃ a ∈ g.aliens, b.get_rect.colliderect a.get_rect := by
    exact List.countP_pos_iff.mp (by omega)
  have hres : ∀ l : List Alien, (∃ a ∈ l, b.get_rect.colliderect a.get_rect) →
      ∃ rest, resolve_bullet b l = some rest ∧ rest.length + 1 = l.length := by
    intro l
    induction l with
    | nil => rintro ⟨a, ha, _⟩; cases ha
    | cons a t ih =>
        rintro ⟨c, hc, hcol⟩
        by_cases hhit : b.get_rect.colliderect a.get_rect
        · exact ⟨t, by simp [resolve_bullet, hhit], rfl⟩
        · have hct : c ∈ t := by
            cases hc with
            | head => exact absurd hcol hhit
            | tail _ h => exact h
          obtain ⟨rest, hrest, hlen⟩ := ih ⟨c, hct, hcol⟩
          refine ⟨a :: rest, ?_, by simpa using hlen⟩
          simp [resolve_bullet, hhit, hrest]
  obtain ⟨rest, hrest, hlen⟩ := hres g.aliens hex
  unfold Game.check_collisions
  rw [hb]
  simp [collide_step, hrest]
  omega

/-- A game state in which one bullet overlaps two aliens at once, used to
instantiate the collision theorems. -/
def double_hit_game : Game :=
  { player := Player.init 375 520, bullets := [Bullet.init 60 60],
    aliens := [Alien.init 50 50, Alien.init 55 55], score := 0, lives := 3,
    game_over := false }

/-- C5 witness: in double_hit_game the bullet overlaps both aliens; the
collision pass removes the bullet and exactly one alien and adds 10. -/
theorem c5_witness :
    (double_hit_game.check_collisions).bullets = [] ∧
    (double_hit_game.check_collisions).aliens.length + 1 =
      double_hit_game.aliens.length ∧
    (double_hit_game.check_collisions).score = double_hit_game.score + 10 :=
  c5_theorem double_hit_game (Bullet.init 60 60) rfl (by decide)

/-- C6: aliens are created with the uniform default direction, and for a
nonempty collection whose members all share direction d the enemy update is
an atomic detect-then-apply-to-all event: if after advancing every member
some member is at an edge, every member drops by exactly ALIEN_DROP_SPEED
and every direction flips to -d; otherwise every member keeps direction d
and its y. No tick produces mixed directions. -/
theorem c6_theorem (as : List Alien) (d : Int) (hne : as ≠ [])
    (hd : ∀ a ∈ as, a.direction = d) :
    (∀ a ∈ create_alien_formation, a.direction = 1) ∧
    ((as.map Alien.move).any Alien.at_edge = true →
      aliens_update as =
        as.map (fun a => { a with
          x := a.x + a.speed * a.direction
          y := a.y + ALIEN_DROP_SPEED
          direction := a.direction * (-1) }) ∧
      ∀ a ∈ aliens_update as, a.direction = -d) ∧
    ((as.map Alien.move).any Alien.at_edge = false →
      aliens_update as =
        as.map (fun a => { a with x := a.x + a.speed * a.direction }) ∧
      ∀ a ∈ aliens_update as, a.direction = d) := by
  have hbase : aliens_update as =
      (if (as.map Alien.move).any Alien.at_edge then
        (as.map Alien.move).map Alien.drop_down
      else as.map Alien.move) := by
    have hemp : as.isEmpty = false := List.isEmpty_eq_false.mpr hne
    simp only [aliens_update, hemp, Bool.false_eq_true, if_false]
  refine ⟨by decide, ?_, ?_⟩
  · intro hedge
    rw [hbase, if_pos hedge, List.map_map]
    constructor
    · rfl
    · intro a ha
      simp only [List.mem_map, Function.comp] at ha
      obtain ⟨a0, ha0, rfl⟩ := ha
      simp [Alien.drop_down, Alien.move, hd a0 ha0]
  · intro hedge
    rw [hbase, if_neg (by simp [hedge])]
    constructor
    · rfl
    · intro a ha
      simp only [List.mem_map] at ha
      obtain ⟨a0, ha0, rfl⟩ := ha
      simp [Alien.move, hd a0 ha0]

/-- C6 witness: a one-alien formation away from the borders keeps direction
1 in a no-edge tick, and a one-alien formation at x = 759 triggers the edge
drop and flips every direction to -1. -/
theorem c6_witness :
    (∀ a ∈ aliens_update [Alien.init 100 50], a.direction = 1) ∧
    (∀ a ∈ aliens_update [Alien.init 759 50], a.direction = -1) := by
  constructor
  · have h := c6_theorem [Alien.init 100 50] 1 (by decide) (by decide)
    exact (h.2.2 (by decide)).2
  · have h := c6_theorem [Alien.init 759 50] 1 (by decide) (by decide)
    exact (h.2.1 (by decide)).2

/-- C7: with lives = 1, one breaching enemy sends the state straight to
game over with lives = 0; whatever the number of simultaneously breaching
enemies, the enemy-player pass changes lives by at most one; and while
game over the loop body performs no simulation update (movement, bullet
and alien advance, collisions) and firing is ignored, until restart. -/
theorem c7_theorem (g : Game) (l r : Bool) :
    (g.lives = 1 → (∃ a ∈ g.aliens, a.breaches g.player = true) →
      (g.check_alien_collision_with_player).lives = 0 ∧
      (g.check_alien_collision_with_player).game_over = true) ∧
    (g.lives - 1 ≤ (g.check_alien_collision_with_player).lives ∧
      (g.check_alien_collision_with_player).lives ≤ g.lives) ∧
    (g.game_over = true → g.tick l r = g ∧ g.fire = g) := by
  have hterm : g.game_over = true → g.tick l r = g ∧ g.fire = g := by
    intro h
    exact ⟨by simp [Game.tick, h], by simp [Game.fire, h]⟩
  refine ⟨?_, ?_, hterm⟩
  · cases hf : g.aliens.find? (fun a => a.breaches g.player) with
    | none =>
        intro _ hex
        rw [List.find?_eq_none] at hf
        obtain ⟨a, ha, hab⟩ := hex
        exact absurd hab (by simpa using hf a ha)
    | some a0 =>
        intro h1 _
        simp only [Game.check_alien_collision_with_player, hf]
        rw [if_pos (by omega)]
        constructor
        · dsimp only
          omega
        · rfl
  · cases hf : g.aliens.find? (fun a => a.breaches g.player) with
    | none =>
        simp only [Game.check_alien_collision_with_player, hf]
        omega
    | some a0 =>
        simp only [Game.check_alien_collision_with_player, hf]
        by_cases hl : g.lives - 1 ≤ 0
        · rw [if_pos hl]
          dsimp only
          omega
        · rw [if_neg hl]
          dsimp only
          omega

/-- A game-over state used to instantiate the terminal-state theorems. -/
def over_demo : Game :=
  { Game.initial with lives := 0, game_over := true }

/-- A playing state with lives = 1 and one alien past the floor line. -/
def last_life_demo : Game :=
  { player := Player.init 375 520, bullets := [], aliens := [Alien.init 100 520],
    score := 0, lives := 1, game_over := false }

/-- C7 witness: in last_life_demo the breach drops lives to 0 and sets game
over; in over_demo a tick and a fire command leave the state unchanged. -/
theorem c7_witness :
    ((last_life_demo.check_alien_collision_with_player).lives = 0 ∧
      (last_life_demo.check_alien_collision_with_player).game_over = true) ∧
    over_demo.tick true false = over_demo ∧ over_demo.fire = over_demo :=
  ⟨(c7_theorem last_life_demo true false).1 rfl
      ⟨Alien.init 100 520, by decide, by decide⟩,
   (c7_theorem over_demo true false).2.2 rfl⟩

/-- C8: a restart key while playing is ignored; a restart key while game
over yields exactly the initial state: score 0, lives 3, no bullets, the
50-alien formation, the player back at its initial position, playing. -/
theorem c8_theorem (g : Game) :
    (g.game_over = false → g.restart_key = g) ∧
    (g.game_over = true →
      g.restart_key = Game.initial ∧
      (g.restart_key).score = 0 ∧ (g.restart_key).lives = 3 ∧
      (g.restart_key).bullets = [] ∧
      (g.restart_key).aliens = create_alien_formation ∧
      (g.restart_key).aliens.length = 50 ∧
      (g.restart_key).player =
        Player.init (SCREEN_WIDTH.fdiv 2 - 25) (SCREEN_HEIGHT - 80) ∧
      (g.restart_key).game_over = false) := by
  constructor
  · intro h
    simp [Game.restart_key, h]
  · intro h
    have hr : g.restart_key = Game.initial := by
      simp [Game.restart_key, Game.restart_game, h]
    rw [hr]
    exact ⟨rfl, rfl, rfl, rfl, rfl, by decide, rfl, rfl⟩

/-- C8 witness: restart in the initial (playing) state is a no-op; restart
in a game-over state rebuilds the initial state. -/
theorem c8_witness :
    Game.initial.restart_key = Game.initial ∧
    over_demo.restart_key = Game.initial :=
  ⟨(c8_theorem Game.initial).1 rfl, ((c8_theorem over_demo).2 rfl).1⟩

/-- C9: when a breach costs a life but lives remain positive, the
enemy-player pass regenerates only the formation: the player, the bullet
collection, the score and the game-over flag are untouched, and lives drop
by exactly one. -/
theorem c9_theorem (g : Game) (h2 : 2 ≤ g.lives)
    (hb : ∃ a ∈ g.aliens, a.breaches g.player = true) :
    (g.check_alien_collision_with_player).player = g.player ∧
    (g.check_alien_collision_with_player).bullets = g.bullets ∧
    (g.check_alien_collision_with_player).score = g.score ∧
    (g.check_alien_collision_with_player).aliens = create_alien_formation ∧
    (g.check_alien_collision_with_player).lives = g.lives - 1 ∧
    (g.check_alien_collision_with_player).game_over = g.game_over := by
  obtain ⟨a, ha, hab⟩ := hb
  cases hf : g.aliens.find? (fun x => x.breaches g.player) with
  | none =>
      rw [List.find?_eq_none] at hf
      exact absurd hab (by simpa using hf a ha)
  | some a0 =>
      simp only [Game.check_alien_collision_with_player, hf]
      rw [if_neg (by omega)]
      exact ⟨rfl, rfl, rfl, rfl, rfl, rfl⟩

/-- A playing state with three lives, one bullet and one breaching alien. -/
def penalty_demo : Game :=
  { player := Player.init 375 520, bullets := [Bullet.init 0 0],
    aliens := [Alien.init 100 520], score := 40, lives := 3,
    game_over := false }

/-- C9 witness: in penalty_demo the breach leaves player, bullets, score
and flag alone, rebuilds the formation and drops lives from 3 to 2. -/
theorem c9_witness :
    (penalty_demo.check_alien_collision_with_player).player =
      penalty_demo.player ∧
    (penalty_demo.check_alien_collision_with_player).bullets =
      penalty_demo.bullets ∧
    (penalty_demo.check_alien_collision_with_player).score =
      penalty_demo.score ∧
    (penalty_demo.check_alien_collision_with_player).aliens =
      create_alien_formation ∧
    (penalty_demo.check_alien_collision_with_player).lives =
      penalty_demo.lives - 1 ∧
    (penalty_demo.check_alien_collision_with_player).game_over =
      penalty_demo.game_over :=
  c9_theorem penalty_demo (by decide)
    ⟨Alien.init 100 520, by decide, by decide⟩

/-- C10: while not game over, each fire command appends exactly one bullet,
spawned at (player.x + player.width // 2 - 2, player.y), and n fire
commands in a row append n bullets: the collection has no upper bound. -/
theorem c10_theorem (g : Game) (h : g.game_over = false) :
    (g.fire).bullets = g.bullets ++
      [Bullet.init (g.player.x + g.player.width.fdiv 2 - 2) g.player.y] ∧
    ∀ n : Nat, ((Game.fire)^[n] g).bullets.length = g.bullets.length + n := by
  have aux : ∀ n : Nat, ((Game.fire)^[n] g).game_over = false ∧
      ((Game.fire)^[n] g).bullets.length = g.bullets.length + n := by
    intro n
    induction n with
    | zero => exact ⟨h, rfl⟩
    | succ m ih =>
        obtain ⟨hgo, hlen⟩ := ih
        rw [Function.iterate_succ_apply']
        refine ⟨by simp [Game.fire, hgo], ?_⟩
        simp [Game.fire, hgo, hlen]
        omega
  exact ⟨by simp [Game.fire, h], fun n => (aux n).2⟩

/-- C10 witness: firing from the initial state appends one bullet at the
player's center, and three consecutive fire commands append three. -/
theorem c10_witness :
    (Game.initial.fire).bullets = Game.initial.bullets ++
      [Bullet.init
        (Game.initial.player.x + Game.initial.player.width.fdiv 2 - 2)
        Game.initial.player.y] ∧
    ((Game.fire)^[3] Game.initial).bullets.length =
      Game.initial.bullets.length + 3 :=
  ⟨(c10_theorem Game.initial rfl).1, (c10_theorem Game.initial rfl).2 3⟩

end SpaceInvaders
